import Mathlib

/-!
Shallow embedding of the DSHS-STAFF-ATTENDANCE browser kiosk
(source files: src/App.tsx, src/services/geminiService.ts,
src/components/StaffRegistration.tsx, and the shared types module).

The repository ships several iterations of the orchestrator component in
the same files, separated by document markers; where the iterations
differ in the logic under scrutiny we embed both, suffixed `V1` (the
first iteration in the file) and `V2` (the second).  Browser/network
primitives (fetch, JSON.parse, Math.random, Date) are modelled as
explicit inputs; everything downstream of them is translated directly
from the source.
-/

set_option maxRecDepth 8192

namespace FaceTrack

/-! ### JavaScript string and truthiness primitives

JS strings are modelled through their character lists so that every
operation reduces in the kernel. -/

/-- JS `s.startsWith(pat)`. -/
def jsStartsWith (s pat : String) : Bool :=
  pat.data.isPrefixOf s.data

/-- JS `s.includes(pat)` (substring containment). -/
def containsSub (s pat : String) : Bool :=
  s.data.tails.any (fun t => pat.data.isPrefixOf t)

/-- JS truthiness of a string: only the empty string is falsy. -/
def jsTruthyS (s : String) : Bool :=
  !s.data.isEmpty

/-- JS truthiness of a `string | undefined | null` value:
`undefined`, `null` and the empty string are falsy. -/
def jsTruthyOpt (s : Option String) : Bool :=
  match s with
  | none => false
  | some v => jsTruthyS v

/-- JS `s.trim()`: strip whitespace from both ends. -/
def jsTrim (s : String) : String :=
  String.mk (((s.data.dropWhile Char.isWhitespace).reverse.dropWhile
    Char.isWhitespace).reverse)

/-! ### Data model (types.ts) -/

/-- `StaffMember` from the shared types module. -/
structure StaffMember where
  id : String
  name : String
  role : String
  description : Option String := none
  avatarUrl : String
  isCustom : Bool := false
deriving DecidableEq, Repr

/-- The `status` field of an attendance record. -/
inductive AttStatus where
  | PRESENT
  | LATE
  | ABSENT
deriving DecidableEq, Repr

/-- The `type` field of an attendance record (`clockMode` in the app). -/
inductive ClockType where
  | SIGN_IN
  | SIGN_OUT
deriving DecidableEq, Repr

/-- `AttendanceRecord` from the shared types module (the `method` field
is the single literal `FACE_RECOGNITION` at every construction site and
is omitted). -/
structure AttendanceRecord where
  id : String
  staffId : String
  staffName : String
  timestamp : String
  date : String
  status : AttStatus
  type : ClockType
deriving DecidableEq, Repr

/-- `RecognitionResult` from the shared types module.  `staffId` and
`staffName` are optional in the interface; `confidence` is a JS number
in `[0,1]`, modelled as a rational. -/
structure RecognitionResult where
  identified : Bool
  staffId : Option String := none
  staffName : Option String := none
  confidence : ℚ
  message : String
deriving DecidableEq, Repr

/-! ### Recognition Client (src/services/geminiService.ts) -/

/-- The filter applied to the staff list in `identifyStaff`:
`s.avatarUrl && (s.avatarUrl.includes('base64,') || s.avatarUrl.startsWith('http'))`. -/
def usableRef (s : StaffMember) : Bool :=
  jsTruthyS s.avatarUrl &&
    (containsSub s.avatarUrl "base64," || jsStartsWith s.avatarUrl "http")

/-- Outcome of the control flow of `identifyStaff` up to the point where
a network request to the model would be issued. -/
inductive IdentifyStep where
  | throwMissingKey
  | shortCircuit (result : RecognitionResult)
  | callModel (validStaff : List StaffMember)
deriving DecidableEq, Repr

/-- The decision structure of `GeminiService.identifyStaff` before the
model call: the `process.env.API_KEY` truthiness check, then the
usable-reference filter capped at 10 entries, then the empty-set
short-circuit; otherwise the request is sent with the filtered list. -/
def identifyStaffStep (apiKey : Option String) (staffList : List StaffMember) :
    IdentifyStep :=
  if !jsTruthyOpt apiKey then
    .throwMissingKey
  else
    let validStaff := (staffList.filter usableRef).take 10
    if validStaff.length = 0 then
      .shortCircuit { identified := false, confidence := 0,
                      message := "No registered staff found." }
    else
      .callModel validStaff

/-- Post-processing of the model reply in `identifyStaff`: an empty or
unparseable body throws, otherwise `JSON.parse(text)` is returned as the
recognition result with no further checks (in particular no confidence
thresholding). -/
def identifyStaffPost (reply : Option RecognitionResult) :
    Except String RecognitionResult :=
  match reply with
  | none => .error "Empty response from AI"
  | some r => .ok r

/-- Outcome of `testConnection` up to the point where a network request
would be issued. -/
inductive TestStep where
  | reject (message : String)
  | request
deriving DecidableEq, Repr

/-- The URL-shape validation at the head of
`GeminiService.testConnection`: reject unless the URL is truthy, starts
with the script domain and contains `/exec`; then reject Google-Forms
URLs; otherwise perform the GET. -/
def testConnectionStep (url : String) : TestStep :=
  if !jsTruthyS url || !jsStartsWith url "https://script.google.com" ||
      !containsSub url "/exec" then
    .reject "Invalid Script URL. Ensure it ends with /exec."
  else if containsSub url "docs.google.com/forms" then
    .reject "This is a Google Form URL. You must use the Apps Script \x27Web App\x27 URL."
  else
    .request

/-! ### The pull path (`GeminiService.fetchCloudData`)

The HTTP layer is modelled as an explicit optional response (`none` is a
network error, caught by the surrounding `try`), and `JSON.parse` as an
explicit parse function into a JSON value tree (`none` is a parse
error, also caught). -/

/-- A JSON value as produced by `JSON.parse`. -/
inductive Json where
  | null
  | bool (b : Bool)
  | num (n : Int)
  | str (s : String)
  | arr (elems : List Json)
  | obj (fields : List (String × Json))

/-- JS truthiness of a parsed JSON value. -/
def jsTruthyJson : Json → Bool
  | .null => false
  | .bool b => b
  | .num n => !(n == 0)
  | .str s => jsTruthyS s
  | .arr _ => true
  | .obj _ => true

/-- JS `typeof data === \x27object\x27` for a parsed JSON value
(arrays and `null` are also of type object). -/
def isObjectType : Json → Bool
  | .null => true
  | .arr _ => true
  | .obj _ => true
  | _ => false

/-- JS property access `j[k]` on a parsed value: a lookup on objects,
`undefined` (here `none`) on everything else. -/
def getField (j : Json) (k : String) : Option Json :=
  match j with
  | .obj fields => fields.lookup k
  | _ => none

/-- JS `Array.isArray(x) ? x : []` applied to a possibly-missing field. -/
def asArray (j : Option Json) : List Json :=
  match j with
  | some (.arr xs) => xs
  | _ => []

/-- An HTTP response as observed by `fetchCloudData`. -/
structure HttpResponse where
  ok : Bool
  contentType : Option String
  body : String

/-- The URL guard shared by the sync client:
`webhookUrl && webhookUrl.startsWith('https://script.google.com') && webhookUrl.includes('/exec')`. -/
def validScriptUrl (url : String) : Bool :=
  jsTruthyS url && jsStartsWith url "https://script.google.com" &&
    containsSub url "/exec"

/-- `GeminiService.fetchCloudData`: validates the URL shape, then the
content type, then HTTP status, then body length, then parses the body
and extracts the `history` and `staff` arrays; every failure path
returns `null` (`none`). -/
def fetchCloudData (parse : String → Option Json) (url : String)
    (resp : Option HttpResponse) : Option (List Json × List Json) :=
  if !validScriptUrl url then none
  else
    match resp with
    | none => none
    | some r =>
      match r.contentType with
      | none => none
      | some ct =>
        if !containsSub ct "application/json" then none
        else if r.ok then
          if !jsTruthyS r.body || r.body.length < 2 then none
          else
            match parse r.body with
            | none => none
            | some data =>
              if jsTruthyJson data && isObjectType data then
                some (asArray (getField data "history"),
                      asArray (getField data "staff"))
              else none
        else none

/-! ### Orchestrator (src/App.tsx)

`App.tsx` contains two iterations of the orchestrator.  Both are
embedded where they differ in the logic under scrutiny.  The
non-deterministic inputs of `handleRecognition` (`Math.random` id,
`Date` strings) are explicit parameters; the sort key obtained from
`new Date(date + ' ' + timestamp).getTime()` is an explicit key
function (total for the first iteration; `none` models `NaN` for the
second, which guards against it). -/

/-- Local state touched by the sync and registration flows. -/
structure AppState where
  history : List AttendanceRecord
  staffList : List StaffMember
deriving DecidableEq, Repr

/-- The typed view of a successful pull, as consumed by
`fetchFromCloud` (`cloudData.history` / `cloudData.staff`). -/
structure CloudData where
  history : List AttendanceRecord
  staff : List StaffMember
deriving DecidableEq, Repr

/-- The `newRecords` constant of the history merge in `fetchFromCloud`
(first iteration): remote records whose id is not in `existingIds`,
the set of ids of `prev`. -/
def newRecordsV1 (remote prev : List AttendanceRecord) : List AttendanceRecord :=
  remote.filter (fun r => !(prev.map (fun x => x.id)).contains r.id)

/-- First iteration of the history merge in `fetchFromCloud`: drop
remote records whose id is already present, keep the previous list if
nothing is new, otherwise prepend and re-sort most-recent-first by the
parsed date key (JS stable sort with comparator `keyB - keyA`). -/
def mergeHistoryV1 (key : AttendanceRecord → Int)
    (remote prev : List AttendanceRecord) : List AttendanceRecord :=
  if (newRecordsV1 remote prev).length = 0 then prev
  else (newRecordsV1 remote prev ++ prev).mergeSort
    (fun a b => decide (key b ≤ key a))

/-- The `newStaff` constant of the staff merge in `fetchFromCloud`
(first iteration). -/
def newStaffV1 (remote prev : List StaffMember) : List StaffMember :=
  remote.filter (fun s => !(prev.map (fun x => x.id)).contains s.id)

/-- The staff merge in `fetchFromCloud` (first iteration): append remote
staff whose id is not already present; no capacity check. -/
def mergeStaffV1 (remote prev : List StaffMember) : List StaffMember :=
  if (newStaffV1 remote prev).length = 0 then prev
  else prev ++ newStaffV1 remote prev

/-- First iteration of `fetchFromCloud` applied to the outcome of the
pull: a `null` pull leaves the state untouched (`if (cloudData)`),
otherwise both merges run. -/
def fetchFromCloudV1 (key : AttendanceRecord → Int) (st : AppState)
    (cloud : Option CloudData) : AppState :=
  match cloud with
  | none => st
  | some d =>
    { history := mergeHistoryV1 key d.history st.history,
      staffList := mergeStaffV1 d.staff st.staffList }

/-- The `newRecords` constant of the history merge in `fetchFromCloud`
(second iteration): remote records must additionally have a truthy id. -/
def newRecordsV2 (remote prev : List AttendanceRecord) : List AttendanceRecord :=
  remote.filter
    (fun r => jsTruthyS r.id && !(prev.map (fun x => x.id)).contains r.id)

/-- Second iteration of the history merge in `fetchFromCloud`: the
comparator treats `NaN` keys as equal, and the merged list is truncated
with `.slice(0, 100)`. -/
def mergeHistoryV2 (key : AttendanceRecord → Option Int)
    (remote prev : List AttendanceRecord) : List AttendanceRecord :=
  if (newRecordsV2 remote prev).length = 0 then prev
  else
    ((newRecordsV2 remote prev ++ prev).mergeSort (fun a b =>
      match key a, key b with
      | some ka, some kb => decide (kb ≤ ka)
      | _, _ => true)).take 100

/-- `App.handleRegister` (identical duplicate-id logic in both
iterations): reject when some staff member already has the id,
otherwise append. -/
def handleRegister (staffList : List StaffMember) (newStaff : StaffMember) :
    List StaffMember :=
  if staffList.any (fun s => s.id == newStaff.id) then staffList
  else staffList ++ [newStaff]

/-- The registration form state of `StaffRegistration`. -/
structure RegistrationForm where
  name : String
  role : String
  staffId : String
  photo : Option String
deriving DecidableEq, Repr

/-- The capacity constant `MAX_STAFF` of `StaffRegistration` (second
iteration). -/
def MAX_STAFF : Nat := 100

/-- `StaffRegistration.handleSubmit` (second iteration, the one with the
capacity check) composed with `App.handleRegister` as its `onRegister`
callback, with `staffCount` the current staff list length: reject at
capacity, reject on missing required fields, otherwise register the
trimmed form data. -/
def handleSubmit (staffList : List StaffMember) (form : RegistrationForm) :
    List StaffMember :=
  if staffList.length ≥ MAX_STAFF then staffList
  else if !jsTruthyS form.name || !jsTruthyS form.role ||
      !jsTruthyOpt form.photo || !jsTruthyS form.staffId then staffList
  else
    handleRegister staffList
      { id := jsTrim form.staffId, name := jsTrim form.name,
        role := jsTrim form.role, avatarUrl := form.photo.getD "",
        isCustom := true }

/-- The acceptance test of `handleRecognition`:
`result.identified && result.staffId && result.staffName`
(truthiness of the optional strings; the confidence field is never
consulted). -/
def recognitionAccepted (result : RecognitionResult) : Bool :=
  result.identified && jsTruthyOpt result.staffId &&
    jsTruthyOpt result.staffName

/-- The attendance record constructed by `handleRecognition` on a
positive result. -/
def mkAttendanceRecord (freshId date timestamp : String) (mode : ClockType)
    (result : RecognitionResult) : AttendanceRecord :=
  { id := freshId,
    staffId := result.staffId.getD "",
    staffName := result.staffName.getD "",
    timestamp := timestamp,
    date := date,
    status := .PRESENT,
    type := mode }

/-- First iteration of `handleRecognition`, restricted to its effect on
the history list: bail out on an empty staff list, prepend a new record
on an accepted result (no length cap), otherwise leave the history
unchanged. -/
def handleRecognitionV1 (freshId date timestamp : String) (mode : ClockType)
    (staffList : List StaffMember) (history : List AttendanceRecord)
    (result : RecognitionResult) : List AttendanceRecord :=
  if staffList.length = 0 then history
  else if recognitionAccepted result then
    mkAttendanceRecord freshId date timestamp mode result :: history
  else history

/-- Second iteration of `handleRecognition`: additionally bails out when
`process.env.API_KEY` is falsy, and caps the history with
`.slice(0, 100)` on insertion. -/
def handleRecognitionV2 (apiKey : Option String)
    (freshId date timestamp : String) (mode : ClockType)
    (staffList : List StaffMember) (history : List AttendanceRecord)
    (result : RecognitionResult) : List AttendanceRecord :=
  if !jsTruthyOpt apiKey then history
  else if staffList.length = 0 then history
  else if recognitionAccepted result then
    (mkAttendanceRecord freshId date timestamp mode result :: history).take 100
  else history

/-! ### Concrete fixtures used by witnesses and counterexamples -/

/-- A registered staff member with a usable reference photo. -/
def annStaff : StaffMember :=
  { id := "E1", name := "Ann", role := "Educator",
    avatarUrl := "http://ref/ann.jpg" }

/-- A second staff member whose id collides with `annStaff`. -/
def dupStaff : StaffMember :=
  { id := "E1", name := "Another", role := "Admin",
    avatarUrl := "http://ref/b.jpg" }

/-- A model reply with `identified = true` but confidence 0.6, below
every threshold in the 0.8 - 0.9 policy band. -/
def lowConfResult : RecognitionResult :=
  { identified := true, staffId := some "E1", staffName := some "Ann",
    confidence := 6/10, message := "match" }

/-- A model reply with `identified = true` and confidence 0.92. -/
def highConfResult : RecognitionResult :=
  { identified := true, staffId := some "E1", staffName := some "Ann",
    confidence := 92/100, message := "match" }

/-- A history already holding 100 records with pairwise distinct ids. -/
def hist100 : List AttendanceRecord :=
  (List.range 100).map (fun i =>
    { id := toString i, staffId := "E1", staffName := "Ann",
      timestamp := "09:00", date := "1/1/2026",
      status := .PRESENT, type := .SIGN_IN })

/-- A staff list already at the capacity of 100 entries. -/
def staff100 : List StaffMember :=
  (List.range 100).map (fun i =>
    { id := toString i, name := "S", role := "Educator",
      avatarUrl := "http://ref/s.jpg" })

/-- A complete registration form whose id is fresh. -/
def freshForm : RegistrationForm :=
  { name := "New Person", role := "Educator", staffId := "X1",
    photo := some "data:image/jpeg;base64,xxxx" }

/-! ### Claim C3 -/

/-- Claim C3: for every registration attempt whose identifier already
equals the identifier of some member of the current identity set, the
registration is rejected and the identity set after the attempt equals
the identity set before it. -/
theorem claim_c3_duplicate_id_rejected
    (staffList : List StaffMember) (newStaff : StaffMember)
    (h : ∃ s ∈ staffList, s.id = newStaff.id) :
    handleRegister staffList newStaff = staffList := by
  obtain ⟨s, hs, hid⟩ := h
  unfold handleRegister
  rw [if_pos]
  exact List.any_eq_true.mpr ⟨s, hs, by rw [hid]; exact beq_self_eq_true _⟩

/-- Witness for claim C3: registering `dupStaff` against a roster
already holding `annStaff` (same id `E1`) leaves the roster unchanged. -/
theorem claim_c3_witness :
    (∃ s ∈ [annStaff], s.id = dupStaff.id) ∧
      handleRegister [annStaff] dupStaff = [annStaff] :=
  ⟨⟨annStaff, List.mem_singleton.mpr rfl, rfl⟩,
   claim_c3_duplicate_id_rejected [annStaff] dupStaff
     ⟨annStaff, List.mem_singleton.mpr rfl, rfl⟩⟩

/-! ### Claim C4 -/

/-- Claim C4: every registration attempt made when the identity set
already contains 100 entries is rejected and no identity is added, even
if the proposed identifier is not present in the set. -/
theorem claim_c4_capacity_rejected
    (staffList : List StaffMember) (form : RegistrationForm)
    (h : staffList.length = 100) :
    handleSubmit staffList form = staffList := by
  unfold handleSubmit
  rw [if_pos (by rw [h]; exact Nat.le_refl 100)]

/-- Witness for claim C4: submitting a complete form with a fresh id
against a roster of exactly 100 entries leaves the roster unchanged. -/
theorem claim_c4_witness :
    staff100.length = 100 ∧ handleSubmit staff100 freshForm = staff100 :=
  ⟨rfl, claim_c4_capacity_rejected staff100 freshForm rfl⟩

/-! ### Claim C8 -/

/-- Claim C8: for every URL that does not both start with the script
domain and contain the `/exec` path suffix, `testConnection` rejects
with the invalid-URL-shape message before any network request. -/
theorem claim_c8_invalid_url_rejected (url : String)
    (h : ¬(jsStartsWith url "https://script.google.com" = true ∧
           containsSub url "/exec" = true)) :
    testConnectionStep url =
      TestStep.reject "Invalid Script URL. Ensure it ends with /exec." := by
  have hcond : (!jsTruthyS url || !jsStartsWith url "https://script.google.com" ||
      !containsSub url "/exec") = true := by
    cases hstart : jsStartsWith url "https://script.google.com"
    · simp
    · cases hexec : containsSub url "/exec"
      · simp
      · exact absurd ⟨hstart, hexec⟩ h
  unfold testConnectionStep
  rw [if_pos hcond]

/-- Witness for claim C8: a URL on the wrong domain is rejected with the
invalid-shape message without reaching the request step. -/
theorem claim_c8_witness :
    ¬(jsStartsWith "https://example.com/exec" "https://script.google.com" = true ∧
      containsSub "https://example.com/exec" "/exec" = true) ∧
    testConnectionStep "https://example.com/exec" =
      TestStep.reject "Invalid Script URL. Ensure it ends with /exec." :=
  ⟨by decide, claim_c8_invalid_url_rejected "https://example.com/exec" (by decide)⟩

/-! ### Claim C9 -/

/-- Claim C9: whenever the model API key is not configured (falsy,
including the empty string), `identifyStaff` throws the missing-key
error for every staff list, in particular the empty one: the credential
check precedes the empty-identity-set short-circuit. -/
theorem claim_c9_missing_key_throws (apiKey : Option String)
    (staffList : List StaffMember) (h : jsTruthyOpt apiKey = false) :
    identifyStaffStep apiKey staffList = IdentifyStep.throwMissingKey := by
  unfold identifyStaffStep
  rw [if_pos (by rw [h]; rfl)]

/-- Witness for claim C9: with no key configured and an empty staff
list, identification throws rather than short-circuiting. -/
theorem claim_c9_witness :
    jsTruthyOpt none = false ∧
      identifyStaffStep none [] = IdentifyStep.throwMissingKey :=
  ⟨rfl, claim_c9_missing_key_throws none [] rfl⟩

/-! ### Claim C5 -/

/-- Counterexample for claim C5 as stated: at the concrete input of an
empty identity set with no API key configured, `identifyStaff` throws
the missing-key error; it does not return a result with
`identified = false`. -/
theorem claim_c5_counterexample :
    identifyStaffStep none [] = IdentifyStep.throwMissingKey ∧
      ¬∃ r, identifyStaffStep none [] = IdentifyStep.shortCircuit r := by
  refine ⟨rfl, ?_⟩
  rintro ⟨r, h⟩
  rw [show identifyStaffStep none [] = IdentifyStep.throwMissingKey from rfl] at h
  exact IdentifyStep.noConfusion h

/-- Claim C5 (amended): provided the API key is configured, every call
to `identifyStaff` whose identity set contains no member with a usable
reference photo returns `identified = false` with an explanatory
message and never reaches the model request. -/
theorem claim_c5_amended (apiKey : Option String)
    (staffList : List StaffMember)
    (hkey : jsTruthyOpt apiKey = true)
    (hempty : staffList.filter usableRef = []) :
    identifyStaffStep apiKey staffList =
      IdentifyStep.shortCircuit
        { identified := false, confidence := 0,
          message := "No registered staff found." } := by
  unfold identifyStaffStep
  rw [if_neg (by rw [hkey]; simp)]
  rw [if_pos (by rw [hempty]; rfl)]

/-- Witness for claim C5 (amended): with a configured key and an empty
identity set, identification short-circuits with `identified = false`. -/
theorem claim_c5_witness :
    jsTruthyOpt (some "k") = true ∧
      ([] : List StaffMember).filter usableRef = [] ∧
      identifyStaffStep (some "k") [] =
        IdentifyStep.shortCircuit
          { identified := false, confidence := 0,
            message := "No registered staff found." } :=
  ⟨rfl, rfl, claim_c5_amended (some "k") [] rfl rfl⟩

/-! ### Claim C1 -/

/-- Counterexample for claim C1 as stated: the model returns
`identified = true` with confidence 0.6, below every threshold in the
0.8 - 0.9 band, yet `handleRecognition` creates an attendance event. -/
theorem claim_c1_counterexample :
    lowConfResult.identified = true ∧
      lowConfResult.confidence < 85/100 ∧
      (handleRecognitionV1 "r1" "1/1/2026" "09:00" ClockType.SIGN_IN
        [annStaff] [] lowConfResult).length = 1 :=
  ⟨rfl, by norm_num [lowConfResult], rfl⟩

/-- Claim C1 (amended): no confidence threshold is enforced by the
Recognition Client or the Orchestrator.  The orchestrator decision is
independent of the confidence value, and the Recognition Client passes
any parsed model reply through unchanged, leaving low-confidence
suppression entirely to the model. -/
theorem claim_c1_amended :
    (∀ (freshId date timestamp : String) (mode : ClockType)
        (staffList : List StaffMember) (history : List AttendanceRecord)
        (result : RecognitionResult) (c c' : ℚ),
      handleRecognitionV1 freshId date timestamp mode staffList history
          { result with confidence := c } =
        handleRecognitionV1 freshId date timestamp mode staffList history
          { result with confidence := c' }) ∧
    (∀ r : RecognitionResult, identifyStaffPost (some r) = Except.ok r) :=
  ⟨fun _ _ _ _ _ _ _ _ _ => rfl, fun _ => rfl⟩

/-! ### Claim C2 -/

/-- Counterexample for claim C2 as stated: in the first iteration of
`handleRecognition` the insertion `setHistory(prev => [newRecord,
...prev])` applies no cap, so a recognition against a history of 100
records grows it to 101. -/
theorem claim_c2_counterexample :
    hist100.length = 100 ∧
      (handleRecognitionV1 "new" "1/2/2026" "09:05" ClockType.SIGN_IN
        [annStaff] hist100 highConfResult).length = 101 :=
  ⟨rfl, rfl⟩

/-- Claim C2 (amended): the 100-entry cap holds only in the second
iteration of the orchestrator, whose recognition insertion and pull
merge both truncate with `.slice(0, 100)`: starting from a history
within the cap, both paths stay within it, and the recognition path
either evicts a (necessarily oldest, the list being most-recent-first)
suffix of the uncapped insertion or leaves the history unchanged.  The
first iteration inserts without bound. -/
theorem claim_c2_amended (key : AttendanceRecord → Option Int)
    (apiKey : Option String) (freshId date timestamp : String)
    (mode : ClockType) (staffList : List StaffMember)
    (history : List AttendanceRecord) (result : RecognitionResult)
    (remote : List AttendanceRecord)
    (h : history.length ≤ 100) :
    (handleRecognitionV2 apiKey freshId date timestamp mode staffList
      history result).length ≤ 100 ∧
    (mergeHistoryV2 key remote history).length ≤ 100 ∧
    ∃ evicted,
      handleRecognitionV2 apiKey freshId date timestamp mode staffList
          history result ++ evicted =
        mkAttendanceRecord freshId date timestamp mode result :: history ∨
      handleRecognitionV2 apiKey freshId date timestamp mode staffList
          history result ++ evicted = history := by
  refine ⟨?_, ?_, ?_⟩
  · unfold handleRecognitionV2
    split
    · exact h
    · split
      · exact h
      · split
        · rw [List.length_take]
          exact Nat.min_le_left _ _
        · exact h
  · unfold mergeHistoryV2
    split
    · exact h
    · rw [List.length_take]
      exact Nat.min_le_left _ _
  · unfold handleRecognitionV2
    split
    · exact ⟨[], Or.inr (List.append_nil _)⟩
    · split
      · exact ⟨[], Or.inr (List.append_nil _)⟩
      · split
        · exact ⟨_, Or.inl (List.take_append_drop 100 _)⟩
        · exact ⟨[], Or.inr (List.append_nil _)⟩

/-- Witness for claim C2 (amended), at an empty starting history. -/
theorem claim_c2_witness :
    ([] : List AttendanceRecord).length ≤ 100 ∧
      ((handleRecognitionV2 (some "k") "r1" "1/1/2026" "09:00"
          ClockType.SIGN_IN [annStaff] [] highConfResult).length ≤ 100 ∧
        (mergeHistoryV2 (fun _ => none) [] []).length ≤ 100 ∧
        ∃ evicted,
          handleRecognitionV2 (some "k") "r1" "1/1/2026" "09:00"
              ClockType.SIGN_IN [annStaff] [] highConfResult ++ evicted =
            mkAttendanceRecord "r1" "1/1/2026" "09:00" ClockType.SIGN_IN
              highConfResult :: [] ∨
          handleRecognitionV2 (some "k") "r1" "1/1/2026" "09:00"
              ClockType.SIGN_IN [annStaff] [] highConfResult ++ evicted = []) :=
  ⟨by decide,
   claim_c2_amended (fun _ => none) (some "k") "r1" "1/1/2026" "09:00"
     ClockType.SIGN_IN [annStaff] [] highConfResult [] (by decide)⟩

/-! ### Claim C10 -/

/-- Claim C10: the pull merge appends every remote staff record whose
identifier is not already present, with no capacity check, so a merge
into a local identity set already holding at least 100 entries exceeds
the 100-identity cap enforced on the registration flow. -/
theorem claim_c10_staff_merge_unbounded
    (remote prev : List StaffMember) (x : StaffMember)
    (hmem : x ∈ remote)
    (hnew : (prev.map (fun t => t.id)).contains x.id = false)
    (hlen : 100 ≤ prev.length) :
    x ∈ mergeStaffV1 remote prev ∧ 100 < (mergeStaffV1 remote prev).length := by
  have hfil : x ∈ newStaffV1 remote prev :=
    List.mem_filter.mpr ⟨hmem, by rw [hnew]; rfl⟩
  have hne : ¬(newStaffV1 remote prev).length = 0 := by
    intro h0
    rw [List.length_eq_zero.mp h0] at hfil
    exact List.not_mem_nil x hfil
  unfold mergeStaffV1
  rw [if_neg hne]
  refine ⟨List.mem_append_right _ hfil, ?_⟩
  have hpos : 0 < (newStaffV1 remote prev).length :=
    List.length_pos_of_mem hfil
  rw [List.length_append]
  omega

/-- A remote staff record with an id not present in `staff100`. -/
def xStaff : StaffMember :=
  { id := "X9", name := "Xavier", role := "Support staff",
    avatarUrl := "http://ref/x.jpg" }

/-- Witness for claim C10: pulling one new remote staff record into a
local set of exactly 100 makes it 101. -/
theorem claim_c10_witness :
    xStaff ∈ [xStaff] ∧
      (staff100.map (fun t => t.id)).contains xStaff.id = false ∧
      100 ≤ staff100.length ∧
      (xStaff ∈ mergeStaffV1 [xStaff] staff100 ∧
        100 < (mergeStaffV1 [xStaff] staff100).length) :=
  ⟨List.mem_singleton.mpr rfl, rfl, by decide,
   claim_c10_staff_merge_unbounded [xStaff] staff100 xStaff
     (List.mem_singleton.mpr rfl) rfl (by decide)⟩

/-! ### Claim C6 -/

/-- `List.contains` on strings agrees with membership. -/
theorem strContains_iff (l : List String) (a : String) :
    l.contains a = true ↔ a ∈ l := by
  simp

/-- Every remote record leaves its id in the merged history: it is
either already among the previous ids or enters through `newRecords`,
and the stable sort only permutes the list. -/
theorem mergeHistoryV1_id_mem (key : AttendanceRecord → Int)
    (remote prev : List AttendanceRecord) (r : AttendanceRecord)
    (hr : r ∈ remote) :
    r.id ∈ (mergeHistoryV1 key remote prev).map (fun x => x.id) := by
  unfold mergeHistoryV1
  split
  · rename_i h0
    have hnil : newRecordsV1 remote prev = [] := List.length_eq_zero.mp h0
    have hcontains : ((prev.map (fun x => x.id)).contains r.id) = true := by
      by_contra hc
      have hmem : r ∈ newRecordsV1 remote prev :=
        List.mem_filter.mpr ⟨hr, by rw [Bool.not_eq_true] at hc; rw [hc]; rfl⟩
      rw [hnil] at hmem
      exact List.not_mem_nil r hmem
    exact (strContains_iff _ _).mp hcontains
  · have hperm := (List.mergeSort_perm (newRecordsV1 remote prev ++ prev)
      (fun a b => decide (key b ≤ key a))).map (fun x => x.id)
    rw [hperm.mem_iff, List.map_append, List.mem_append]
    by_cases hc : ((prev.map (fun x => x.id)).contains r.id) = true
    · exact Or.inr ((strContains_iff _ _).mp hc)
    · refine Or.inl (List.mem_map.mpr ⟨r, ?_, rfl⟩)
      exact List.mem_filter.mpr ⟨hr, by rw [Bool.not_eq_true] at hc; rw [hc]; rfl⟩

/-- When every remote record id is already present, the history merge is
the identity (the `newRecords.length === 0` early return). -/
theorem mergeHistoryV1_stable (key : AttendanceRecord → Int)
    (remote prev : List AttendanceRecord)
    (h : ∀ r ∈ remote, r.id ∈ prev.map (fun x => x.id)) :
    mergeHistoryV1 key remote prev = prev := by
  unfold mergeHistoryV1
  rw [if_pos]
  rw [List.length_eq_zero]
  unfold newRecordsV1
  rw [List.filter_eq_nil_iff]
  intro a ha
  have hc := (strContains_iff (prev.map fun x => x.id) a.id).mpr (h a ha)
  rw [hc]
  decide

/-- Every remote staff record leaves its id in the merged staff list. -/
theorem mergeStaffV1_id_mem (remote prev : List StaffMember)
    (s : StaffMember) (hs : s ∈ remote) :
    s.id ∈ (mergeStaffV1 remote prev).map (fun x => x.id) := by
  unfold mergeStaffV1
  split
  · rename_i h0
    have hnil : newStaffV1 remote prev = [] := List.length_eq_zero.mp h0
    have hcontains : ((prev.map (fun x => x.id)).contains s.id) = true := by
      by_contra hc
      have hmem : s ∈ newStaffV1 remote prev :=
        List.mem_filter.mpr ⟨hs, by rw [Bool.not_eq_true] at hc; rw [hc]; rfl⟩
      rw [hnil] at hmem
      exact List.not_mem_nil s hmem
    exact (strContains_iff _ _).mp hcontains
  · rw [List.map_append, List.mem_append]
    by_cases hc : ((prev.map (fun x => x.id)).contains s.id) = true
    · exact Or.inl ((strContains_iff _ _).mp hc)
    · refine Or.inr (List.mem_map.mpr ⟨s, ?_, rfl⟩)
      exact List.mem_filter.mpr ⟨hs, by rw [Bool.not_eq_true] at hc; rw [hc]; rfl⟩

/-- When every remote staff id is already present, the staff merge is
the identity. -/
theorem mergeStaffV1_stable (remote prev : List StaffMember)
    (h : ∀ s ∈ remote, s.id ∈ prev.map (fun x => x.id)) :
    mergeStaffV1 remote prev = prev := by
  unfold mergeStaffV1
  rw [if_pos]
  rw [List.length_eq_zero]
  unfold newStaffV1
  rw [List.filter_eq_nil_iff]
  intro a ha
  have hc := (strContains_iff (prev.map fun x => x.id) a.id).mpr (h a ha)
  rw [hc]
  decide

/-- Claim C6: merging the same pulled remote data twice in a row leaves
local state (attendance history and identity set) identical to the
state after the first merge — the id-based dedup filters out every
record the first merge already admitted, so nothing is added again. -/
theorem claim_c6_pull_idempotent (key : AttendanceRecord → Int)
    (st : AppState) (d : CloudData) :
    fetchFromCloudV1 key (fetchFromCloudV1 key st (some d)) (some d) =
      fetchFromCloudV1 key st (some d) := by
  show AppState.mk
      (mergeHistoryV1 key d.history (mergeHistoryV1 key d.history st.history))
      (mergeStaffV1 d.staff (mergeStaffV1 d.staff st.staffList)) =
    AppState.mk (mergeHistoryV1 key d.history st.history)
      (mergeStaffV1 d.staff st.staffList)
  rw [AppState.mk.injEq]
  exact ⟨mergeHistoryV1_stable key d.history _
      (fun r hr => mergeHistoryV1_id_mem key d.history st.history r hr),
    mergeStaffV1_stable d.staff _
      (fun s hs => mergeStaffV1_id_mem d.staff st.staffList s hs)⟩

/-! ### Claim C7 -/

/-- Claim C7: every failing response to the pull request — network
error, non-OK HTTP status, a non-JSON content type, or a body that
fails to parse as JSON — makes `fetchCloudData` return `null` (never an
exception, all paths are caught), and a `null` pull leaves the local
attendance and staff state unchanged. -/
theorem claim_c7_pull_failure_null
    (parse : String → Option Json) (url : String) (resp : Option HttpResponse)
    (key : AttendanceRecord → Int) (st : AppState)
    (h : resp = none ∨ ∃ r, resp = some r ∧
        (r.ok = false ∨ r.contentType = none ∨
         (∃ ct, r.contentType = some ct ∧
            containsSub ct "application/json" = false) ∨
         parse r.body = none)) :
    fetchCloudData parse url resp = none ∧
      fetchFromCloudV1 key st none = st := by
  refine ⟨?_, rfl⟩
  rcases h with rfl | ⟨r, rfl, hr⟩
  · simp [fetchCloudData]
  · rcases hr with hok | hcn | ⟨ct, hct, hjson⟩ | hparse
    · cases hct2 : r.contentType with
      | none => simp [fetchCloudData, hct2]
      | some ct => simp [fetchCloudData, hct2, hok]
    · simp [fetchCloudData, hcn]
    · simp [fetchCloudData, hct, hjson]
    · cases hct2 : r.contentType with
      | none => simp [fetchCloudData, hct2]
      | some ct => simp [fetchCloudData, hct2, hparse]

/-- A failing HTTP response: correct content type but non-OK status. -/
def badResp : HttpResponse :=
  { ok := false, contentType := some "application/json", body := "{}" }

/-- Witness for claim C7: a non-OK response yields a `null` pull and an
unchanged local state. -/
theorem claim_c7_witness :
    ((some badResp = none) ∨ ∃ r, some badResp = some r ∧
        (r.ok = false ∨ r.contentType = none ∨
         (∃ ct, r.contentType = some ct ∧
            containsSub ct "application/json" = false) ∨
         (fun _ => (none : Option Json)) r.body = none)) ∧
      (fetchCloudData (fun _ => none)
          "https://script.google.com/macros/s/abc/exec" (some badResp) = none ∧
        fetchFromCloudV1 (fun _ => 0) ⟨[], []⟩ none = ⟨[], []⟩) :=
  ⟨Or.inr ⟨badResp, rfl, Or.inl rfl⟩,
   claim_c7_pull_failure_null (fun _ => none)
     "https://script.google.com/macros/s/abc/exec" (some badResp)
     (fun _ => 0) ⟨[], []⟩ (Or.inr ⟨badResp, rfl, Or.inl rfl⟩)⟩

end FaceTrack
